import Mathlib

/-!
Verification of the napari reader-plugin hook contract
(`napari/plugins/hook_specifications.py`, hook `napari_get_reader`).

The source file declares a single pluggy hook specification together with a
documented calling contract.  This development shallowly embeds that contract:
path arguments, layer-data tuples, the possible Python return values of a hook
implementation (including the falsy sentinels the docstring warns against),
resolution functions that may raise, the conformance predicate spelled out by
the docstring, and the first-result dispatcher the host is documented to use.
-/

namespace Napari

/-- The `path` argument of `napari_get_reader`: per the hook signature
`path: Union[str, List[str]]`, it is either a single path string or a list of
path strings. -/
inductive PathArg where
  | single (s : String)
  | multi (ps : List String)
  deriving DecidableEq, Repr

/-- A minimal model of the Python values that appear inside layer-data tuples:
strings, integers, `None`, booleans, array-like data payloads (identified by
their shape), and open key-value metadata mappings. -/
inductive PyVal where
  | pstr (s : String)
  | pint (n : Int)
  | pnone
  | pbool (b : Bool)
  | parr (shape : List Nat)
  | pdict (entries : List (String × String))
  deriving DecidableEq, Repr

/-- Is a value admissible in the `meta` position: an open key-value mapping. -/
def isMetaVal : PyVal → Bool
  | PyVal.pdict _ => true
  | _ => false

/-- Is a value admissible in the `layer_type` position: an identifying label. -/
def isKindVal : PyVal → Bool
  | PyVal.pstr _ => true
  | _ => false

/-- A raw Python tuple is modelled positionally as a list of values; a
layer-data tuple is valid when it is a 1-, 2-, or 3-tuple of the shapes
`(data,)`, `(data, meta)`, or `(data, meta, layer_type)`, as the docstring of
`napari_get_reader` requires. -/
def isLayerDataTuple : List PyVal → Bool
  | [_] => true
  | [_, m] => isMetaVal m
  | [_, m, k] => isMetaVal m && isKindVal k
  | _ => false

/-- The outcome of calling a Python function: it either returns a value or
raises an exception (identified by its message). -/
inductive CallOutcome (α : Type) where
  | ok (v : α)
  | raises (msg : String)
  deriving DecidableEq, Repr

/-- `ReaderFunction` (from `napari.types`): the loader callable returned by a
successful resolution.  It accepts the same path argument shape and, when it
succeeds, returns a list of raw layer-data tuples. -/
def ReaderFunction : Type := PathArg → CallOutcome (List (List PyVal))

/-- The raw value a hook implementation may actually return at runtime: `None`,
a loader callable, or one of the falsy-but-non-None sentinels the docstring
explicitly rules out (`False`, an empty list, an empty string, zero). -/
inductive HookResult where
  | pyNone
  | pyFalse
  | pyEmptyList
  | pyEmptyStr
  | pyZero
  | reader (f : ReaderFunction)

/-- Python truthiness on hook results: the falsy values other than `None`.
`None` is handled separately, and a function object is always truthy. -/
def isFalsyNonNone : HookResult → Bool
  | HookResult.pyFalse => true
  | HookResult.pyEmptyList => true
  | HookResult.pyEmptyStr => true
  | HookResult.pyZero => true
  | _ => false

/-- The Option-style reading of a raw hook result that a caller applies:
`some` exactly when a loader callable was returned. -/
def asOption : HookResult → Option ReaderFunction
  | HookResult.reader f => Option.some f
  | _ => Option.none

/-- A reader plugin: its format-recognition predicate (the quick sniff the
docstring describes) together with the observable behavior of calling its
`napari_get_reader` implementation. -/
structure ReaderPlugin where
  recognizes : PathArg → Bool
  call : PathArg → CallOutcome HookResult

/-- Every tuple in a returned layer-data list is a valid layer-data tuple. -/
def validLayerList (ts : List (List PyVal)) : Prop :=
  ∀ t ∈ ts, isLayerDataTuple t = true

/-- Loader conformance at the path `p` the resolution was queried with: the
loader succeeds on that same path, and any list it ever successfully returns
consists of valid layer-data tuples. -/
def conformingLoader (f : ReaderFunction) (p : PathArg) : Prop :=
  (∃ ts, f p = CallOutcome.ok ts) ∧
    ∀ q ts, f q = CallOutcome.ok ts → validLayerList ts

/-- The documented contract of `napari_get_reader`: on a path of unrecognized
format the implementation returns `None` (not `False`, not an empty sequence,
and it does not raise); on a recognized path it returns a new loader callable
that accepts the same path and returns a list of layer-data tuples. -/
def conforming (P : ReaderPlugin) : Prop :=
  ∀ p,
    (P.recognizes p = false → P.call p = CallOutcome.ok HookResult.pyNone) ∧
    (P.recognizes p = true →
      ∃ f, P.call p = CallOutcome.ok (HookResult.reader f) ∧ conformingLoader f p)

/-- Modelled from the spec: the host-side hook dispatcher
(`firstresult=True` dispatch through pluggy and
`napari.plugins.io.read_data_with_plugins`) is not part of the excerpted
source.  Following the spec, the host asks registered plugins in order and
stops at the first one whose resolution returns a non-`None` result; a raise
propagates; if every plugin returns `None` the overall result is empty. -/
def dispatch : List ReaderPlugin → PathArg → CallOutcome (Option HookResult)
  | [], _ => CallOutcome.ok Option.none
  | P :: rest, p =>
    match P.call p with
    | CallOutcome.raises m => CallOutcome.raises m
    | CallOutcome.ok HookResult.pyNone => dispatch rest p
    | CallOutcome.ok r => CallOutcome.ok (Option.some r)

/-- The user-visible outcome of a dispatch. -/
inductive DispatchOutcome where
  | foundReader (r : HookResult)
  | noReaderAvailable
  | error (msg : String)

/-- Modelled from the spec: the dispatcher-level report.  When no plugin claims
the path the host reports that no reader is available rather than raising. -/
def runDispatch (plugins : List ReaderPlugin) (p : PathArg) : DispatchOutcome :=
  match dispatch plugins p with
  | CallOutcome.ok Option.none => DispatchOutcome.noReaderAvailable
  | CallOutcome.ok (Option.some r) => DispatchOutcome.foundReader r
  | CallOutcome.raises m => DispatchOutcome.error m

/- Concrete plugins used as witnesses. -/

/-- A loader that returns one single-element layer-data tuple holding a 2×2
array payload, on any path. -/
def fakeLoader : ReaderFunction :=
  fun _ => CallOutcome.ok [[PyVal.parr [2, 2]]]

/-- An extension sniff: does the path string end in `.fake`? -/
def hasFakeSuffix (s : String) : Bool :=
  s.toList.reverse.take 5 == (String.toList ".fake").reverse

/-- The fake format sniff: a path is recognized when it ends in `.fake`
(for a list: when the list is nonempty and every element ends in `.fake`). -/
def fakeRecognizes : PathArg → Bool
  | PathArg.single s => hasFakeSuffix s
  | PathArg.multi ps => !ps.isEmpty && ps.all (fun s => hasFakeSuffix s)

/-- A conforming plugin for the `.fake` format. -/
def fakePlugin : ReaderPlugin where
  recognizes := fakeRecognizes
  call := fun p =>
    if fakeRecognizes p then CallOutcome.ok (HookResult.reader fakeLoader)
    else CallOutcome.ok HookResult.pyNone

/-- A conforming plugin that recognizes `.fake` paths only when given a single
string, never a list: it branches on the shape of its argument. -/
def singleOnlyPlugin : ReaderPlugin where
  recognizes := fun p =>
    match p with
    | PathArg.single s => hasFakeSuffix s
    | PathArg.multi _ => false
  call := fun p =>
    match p with
    | PathArg.single s =>
      if hasFakeSuffix s then CallOutcome.ok (HookResult.reader fakeLoader)
      else CallOutcome.ok HookResult.pyNone
    | PathArg.multi _ => CallOutcome.ok HookResult.pyNone

/-- A plugin that never recognizes anything and always returns `None`. -/
def nullPlugin : ReaderPlugin where
  recognizes := fun _ => false
  call := fun _ => CallOutcome.ok HookResult.pyNone

theorem conformingLoader_fakeLoader (p : PathArg) : conformingLoader fakeLoader p := by
  refine ⟨⟨[[PyVal.parr [2, 2]]], rfl⟩, ?_⟩
  intro q ts h t ht
  simp only [fakeLoader, CallOutcome.ok.injEq] at h
  subst h
  simp only [List.mem_singleton] at ht
  subst ht
  rfl

theorem conforming_fakePlugin : conforming fakePlugin := by
  intro p
  constructor
  · intro h
    simp only [fakePlugin] at h
    simp [fakePlugin, h]
  · intro h
    simp only [fakePlugin] at h
    exact ⟨fakeLoader, by simp [fakePlugin, h], conformingLoader_fakeLoader p⟩

theorem conforming_singleOnlyPlugin : conforming singleOnlyPlugin := by
  intro p
  cases p with
  | single s =>
    constructor
    · intro h
      simp only [singleOnlyPlugin] at h ⊢
      simp [h]
    · intro h
      simp only [singleOnlyPlugin] at h ⊢
      exact ⟨fakeLoader, by simp [h], conformingLoader_fakeLoader _⟩
  | multi ps =>
    constructor
    · intro _
      rfl
    · intro h
      simp [singleOnlyPlugin] at h

theorem conforming_nullPlugin : conforming nullPlugin := by
  intro p
  exact ⟨fun _ => rfl, fun h => by simp [nullPlugin] at h⟩

end Napari

namespace Napari

theorem exists_pdict_of_isMetaVal (x : PyVal) (h : isMetaVal x = true) :
    ∃ m, x = PyVal.pdict m := by
  cases x <;> simp_all [isMetaVal]

theorem exists_pstr_of_isKindVal (x : PyVal) (h : isKindVal x = true) :
    ∃ k, x = PyVal.pstr k := by
  cases x <;> simp_all [isKindVal]

/-- A valid layer-data tuple has length 1, 2, or 3 and one of the three
documented shapes. -/
theorem layerTuple_shape (t : List PyVal) (h : isLayerDataTuple t = true) :
    (t.length = 1 ∨ t.length = 2 ∨ t.length = 3) ∧
    ((∃ d, t = [d]) ∨ (∃ d m, t = [d, PyVal.pdict m]) ∨
      (∃ d m k, t = [d, PyVal.pdict m, PyVal.pstr k])) := by
  rcases t with _ | ⟨d, _ | ⟨x, _ | ⟨y, _ | ⟨z, rest⟩⟩⟩⟩
  · simp [isLayerDataTuple] at h
  · exact ⟨Or.inl rfl, Or.inl ⟨d, rfl⟩⟩
  · simp only [isLayerDataTuple] at h
    obtain ⟨m, rfl⟩ := exists_pdict_of_isMetaVal x h
    exact ⟨Or.inr (Or.inl rfl), Or.inr (Or.inl ⟨d, m, rfl⟩)⟩
  · simp only [isLayerDataTuple, Bool.and_eq_true] at h
    obtain ⟨m, rfl⟩ := exists_pdict_of_isMetaVal x h.1
    obtain ⟨k, rfl⟩ := exists_pstr_of_isKindVal y h.2
    exact ⟨Or.inr (Or.inr rfl), Or.inr (Or.inr ⟨d, m, k, rfl⟩)⟩
  · simp [isLayerDataTuple] at h

/-- C1: for every input path, a conforming `napari_get_reader` implementation
returns either `None` or a loader callable; it never returns `False`, an empty
sequence, or any other falsy-but-non-None sentinel, so a caller distinguishes
"no reader" from "a reader" by an Option-style test alone. -/
theorem C1_option_style_result (P : ReaderPlugin) (h : conforming P)
    (p : PathArg) (r : HookResult) (hr : P.call p = CallOutcome.ok r) :
    isFalsyNonNone r = false ∧
    (asOption r = Option.none ↔ r = HookResult.pyNone) ∧
    (∀ g, asOption r = Option.some g ↔ r = HookResult.reader g) := by
  cases hrec : P.recognizes p with
  | false =>
    have hc := (h p).1 hrec
    rw [hc] at hr
    injection hr with hr
    subst hr
    refine ⟨rfl, by simp [asOption], fun g => ?_⟩
    simp [asOption]
  | true =>
    obtain ⟨f, hf, _⟩ := (h p).2 hrec
    rw [hf] at hr
    injection hr with hr
    subst hr
    refine ⟨rfl, by simp [asOption], fun g => ?_⟩
    simp [asOption]

/-- Witness for C1: the fake plugin at `a.fake` returns its loader, which is
non-falsy and reads back as `some` under the Option-style test. -/
theorem C1_option_style_result_witness :
    isFalsyNonNone (HookResult.reader fakeLoader) = false ∧
    (asOption (HookResult.reader fakeLoader) = Option.none ↔
      HookResult.reader fakeLoader = HookResult.pyNone) ∧
    (∀ g, asOption (HookResult.reader fakeLoader) = Option.some g ↔
      HookResult.reader fakeLoader = HookResult.reader g) :=
  C1_option_style_result fakePlugin conforming_fakePlugin (PathArg.single "a.fake")
    (HookResult.reader fakeLoader) rfl

/-- C2: for every recognized path, a conforming implementation returns a
callable, and invoking that callable with the same path yields an ordered list
in which every element is a tuple of length 1, 2, or 3 of the shapes
`(data,)`, `(data, meta)`, or `(data, meta, layer_type)`. -/
theorem C2_recognized_returns_layer_tuples (P : ReaderPlugin) (h : conforming P)
    (p : PathArg) (hp : P.recognizes p = true) :
    ∃ f, P.call p = CallOutcome.ok (HookResult.reader f) ∧
      ∃ ts, f p = CallOutcome.ok ts ∧
        ∀ t ∈ ts,
          (t.length = 1 ∨ t.length = 2 ∨ t.length = 3) ∧
          ((∃ d, t = [d]) ∨ (∃ d m, t = [d, PyVal.pdict m]) ∨
            (∃ d m k, t = [d, PyVal.pdict m, PyVal.pstr k])) := by
  obtain ⟨f, hf, ⟨ts, hts⟩, hvalid⟩ := (h p).2 hp
  exact ⟨f, hf, ts, hts, fun t ht => layerTuple_shape t (hvalid p ts hts t ht)⟩

/-- Witness for C2: the fake plugin recognizes `a.fake` and its loader returns
one valid single-element tuple. -/
theorem C2_recognized_returns_layer_tuples_witness :
    ∃ f, fakePlugin.call (PathArg.single "a.fake") =
        CallOutcome.ok (HookResult.reader f) ∧
      ∃ ts, f (PathArg.single "a.fake") = CallOutcome.ok ts ∧
        ∀ t ∈ ts,
          (t.length = 1 ∨ t.length = 2 ∨ t.length = 3) ∧
          ((∃ d, t = [d]) ∨ (∃ d m, t = [d, PyVal.pdict m]) ∨
            (∃ d m k, t = [d, PyVal.pdict m, PyVal.pstr k])) :=
  C2_recognized_returns_layer_tuples fakePlugin conforming_fakePlugin
    (PathArg.single "a.fake") rfl

/-- C3: a conforming implementation signals non-recognition solely by
returning `None`, never by raising. -/
theorem C3_nonrecognition_returns_none_never_raises (P : ReaderPlugin)
    (h : conforming P) (p : PathArg) (hp : P.recognizes p = false) :
    P.call p = CallOutcome.ok HookResult.pyNone ∧
    ∀ msg, P.call p ≠ CallOutcome.raises msg := by
  have hc := (h p).1 hp
  refine ⟨hc, fun msg hmsg => ?_⟩
  rw [hc] at hmsg
  exact CallOutcome.noConfusion hmsg

/-- Witness for C3: the null plugin on an unrecognized path returns `None` and
does not raise. -/
theorem C3_nonrecognition_witness :
    nullPlugin.call (PathArg.single "b.png") = CallOutcome.ok HookResult.pyNone ∧
    ∀ msg, nullPlugin.call (PathArg.single "b.png") ≠ CallOutcome.raises msg :=
  C3_nonrecognition_returns_none_never_raises nullPlugin conforming_nullPlugin
    (PathArg.single "b.png") rfl

end Napari

namespace Napari

theorem dispatch_cons_none (Q : ReaderPlugin) (rest : List ReaderPlugin)
    (p : PathArg) (h : Q.call p = CallOutcome.ok HookResult.pyNone) :
    dispatch (Q :: rest) p = dispatch rest p := by
  simp [dispatch, h]

theorem dispatch_cons_result (Q : ReaderPlugin) (rest : List ReaderPlugin)
    (p : PathArg) (r : HookResult) (h : Q.call p = CallOutcome.ok r)
    (hr : r ≠ HookResult.pyNone) :
    dispatch (Q :: rest) p = CallOutcome.ok (Option.some r) := by
  cases r with
  | pyNone => exact absurd rfl hr
  | pyFalse => simp [dispatch, h]
  | pyEmptyList => simp [dispatch, h]
  | pyEmptyStr => simp [dispatch, h]
  | pyZero => simp [dispatch, h]
  | reader f => simp [dispatch, h]

theorem dispatch_all_none (plugins : List ReaderPlugin) (p : PathArg) :
    (∀ Q ∈ plugins, Q.call p = CallOutcome.ok HookResult.pyNone) →
    dispatch plugins p = CallOutcome.ok Option.none := by
  induction plugins with
  | nil => intro _; rfl
  | cons Q rest ih =>
    intro h
    rw [dispatch_cons_none Q rest p (h Q (List.mem_cons_self Q rest))]
    exact ih (fun Q2 hQ2 => h Q2 (List.mem_cons_of_mem Q hQ2))

/-- C4: the host dispatcher stops at, and returns the result of, the first
plugin whose resolution returns a non-`None` result; the plugins after it are
never consulted, so the dispatch value is the same whatever they are. -/
theorem C4_first_result_wins (pre : List ReaderPlugin) (P : ReaderPlugin)
    (p : PathArg) (r : HookResult)
    (hpre : ∀ Q ∈ pre, Q.call p = CallOutcome.ok HookResult.pyNone)
    (hP : P.call p = CallOutcome.ok r) (hr : r ≠ HookResult.pyNone) :
    ∀ post, dispatch (pre ++ P :: post) p = CallOutcome.ok (Option.some r) := by
  intro post
  induction pre with
  | nil => exact dispatch_cons_result P post p r hP hr
  | cons Q rest ih =>
    rw [List.cons_append,
      dispatch_cons_none Q (rest ++ P :: post) p (hpre Q (List.mem_cons_self Q rest))]
    exact ih (fun Q2 hQ2 => hpre Q2 (List.mem_cons_of_mem Q hQ2))

/-- Witness for C4: with a non-recognizing plugin first, the fake plugin
second, and a further plugin after it, dispatch returns the fake reader, and
the trailing plugin is irrelevant. -/
theorem C4_first_result_wins_witness :
    dispatch ([nullPlugin] ++ fakePlugin :: [singleOnlyPlugin])
      (PathArg.single "a.fake") =
    CallOutcome.ok (Option.some (HookResult.reader fakeLoader)) :=
  C4_first_result_wins [nullPlugin] fakePlugin (PathArg.single "a.fake")
    (HookResult.reader fakeLoader)
    (by
      intro Q hQ
      rw [List.mem_singleton] at hQ
      subst hQ
      rfl)
    rfl
    (fun hcontra => HookResult.noConfusion hcontra)
    [singleOnlyPlugin]

/-- C5: a path argument is exactly one of the two shapes (a single string or a
list of strings), and the contract does not normalize between them: there is a
conforming plugin that behaves differently on a single string than on the
one-element list holding the same string. -/
theorem C5_two_shapes_not_normalized :
    (∀ p : PathArg, (∃ s, p = PathArg.single s) ∨ (∃ ps, p = PathArg.multi ps)) ∧
    (∃ P, conforming P ∧
      ∃ s, P.call (PathArg.single s) ≠ P.call (PathArg.multi [s])) := by
  constructor
  · intro p
    cases p with
    | single s => exact Or.inl ⟨s, rfl⟩
    | multi ps => exact Or.inr ⟨ps, rfl⟩
  · refine ⟨singleOnlyPlugin, conforming_singleOnlyPlugin, "a.fake", ?_⟩
    intro hcontra
    have h1 : singleOnlyPlugin.call (PathArg.single "a.fake") =
        CallOutcome.ok (HookResult.reader fakeLoader) := rfl
    have h2 : singleOnlyPlugin.call (PathArg.multi ["a.fake"]) =
        CallOutcome.ok HookResult.pyNone := rfl
    rw [h1, h2] at hcontra
    injection hcontra with hcontra
    exact HookResult.noConfusion hcontra

/-- C6: the loader returned by a successful resolution accepts the same path
argument shape that was passed to the resolution function (it succeeds on that
very path), and every list it successfully returns is an ordered sequence of
layer-data tuples. -/
theorem C6_loader_same_shape_layer_tuples (P : ReaderPlugin) (h : conforming P)
    (p : PathArg) (hp : P.recognizes p = true) :
    ∃ f, P.call p = CallOutcome.ok (HookResult.reader f) ∧
      (∃ ts, f p = CallOutcome.ok ts) ∧
      ∀ q ts, f q = CallOutcome.ok ts → ∀ t ∈ ts, isLayerDataTuple t = true := by
  obtain ⟨f, hf, hsucc, hvalid⟩ := (h p).2 hp
  exact ⟨f, hf, hsucc, fun q ts hq t ht => hvalid q ts hq t ht⟩

/-- Witness for C6: the fake plugin on a two-element path list. -/
theorem C6_loader_same_shape_witness :
    ∃ f, fakePlugin.call (PathArg.multi ["a.fake", "b.fake"]) =
        CallOutcome.ok (HookResult.reader f) ∧
      (∃ ts, f (PathArg.multi ["a.fake", "b.fake"]) = CallOutcome.ok ts) ∧
      ∀ q ts, f q = CallOutcome.ok ts → ∀ t ∈ ts, isLayerDataTuple t = true :=
  C6_loader_same_shape_layer_tuples fakePlugin conforming_fakePlugin
    (PathArg.multi ["a.fake", "b.fake"]) rfl

/-- C7: when every registered plugin returns `None` for a path, the overall
dispatch is non-fatal: it reports that no reader is available and never
surfaces an error. -/
theorem C7_all_none_reports_no_reader (plugins : List ReaderPlugin) (p : PathArg)
    (h : ∀ Q ∈ plugins, Q.call p = CallOutcome.ok HookResult.pyNone) :
    runDispatch plugins p = DispatchOutcome.noReaderAvailable ∧
    ∀ msg, runDispatch plugins p ≠ DispatchOutcome.error msg := by
  have hd := dispatch_all_none plugins p h
  constructor
  · simp [runDispatch, hd]
  · intro msg hmsg
    simp [runDispatch, hd] at hmsg

/-- Witness for C7: one always-`None` plugin asked about an unknown path. -/
theorem C7_all_none_witness :
    runDispatch [nullPlugin] (PathArg.single "/tmp/unknown.xyz") =
      DispatchOutcome.noReaderAvailable ∧
    ∀ msg, runDispatch [nullPlugin] (PathArg.single "/tmp/unknown.xyz") ≠
      DispatchOutcome.error msg :=
  C7_all_none_reports_no_reader [nullPlugin] (PathArg.single "/tmp/unknown.xyz")
    (by
      intro Q hQ
      rw [List.mem_singleton] at hQ
      subst hQ
      rfl)

end Napari

namespace Napari

/-- Modelled from the spec: the hook is a pure, stateless, call-and-return
contract with no retained state between invocations.  To state this we embed
hook implementations that could carry state of type `σ` across invocations;
the contract demands that the returned result never depends on that state. -/
structure StatefulReader (σ : Type) where
  init : σ
  call : σ → PathArg → CallOutcome HookResult × σ

/-- The stateless contract: the result of a call does not depend on the
carried state. -/
def statelessContract {σ : Type} (M : StatefulReader σ) : Prop :=
  ∀ s t p, (M.call s p).1 = (M.call t p).1

/-- The state reached after running a sequence of invocations from `s`. -/
def afterRun {σ : Type} (M : StatefulReader σ) : σ → List PathArg → σ
  | s, [] => s
  | s, p :: ps => afterRun M (M.call s p).2 ps

/-- The lift of a pure plugin into the stateful setting: it keeps no state. -/
def toStateful (P : ReaderPlugin) : StatefulReader Unit where
  init := ()
  call := fun s p => (P.call p, s)

/-- C8: under the stateless call-and-return contract, two invocations with the
same path in two runs (after arbitrary prior invocation histories) yield the
same result. -/
theorem C8_stateless_same_result {σ : Type} (M : StatefulReader σ)
    (h : statelessContract M) (ps qs : List PathArg) (p : PathArg) :
    (M.call (afterRun M M.init ps) p).1 = (M.call (afterRun M M.init qs) p).1 :=
  h (afterRun M M.init ps) (afterRun M M.init qs) p

/-- Witness for C8: the lifted fake plugin is stateless, and a repeated query
after a prior invocation matches the fresh-run query. -/
theorem C8_stateless_same_result_witness :
    statelessContract (toStateful fakePlugin) ∧
    ((toStateful fakePlugin).call
        (afterRun (toStateful fakePlugin) (toStateful fakePlugin).init
          [PathArg.single "a.fake"])
        (PathArg.single "a.fake")).1 =
      ((toStateful fakePlugin).call
        (afterRun (toStateful fakePlugin) (toStateful fakePlugin).init [])
        (PathArg.single "a.fake")).1 :=
  ⟨fun _ _ _ => rfl,
    C8_stateless_same_result (toStateful fakePlugin) (fun _ _ _ => rfl)
      [PathArg.single "a.fake"] [] (PathArg.single "a.fake")⟩

/-- The parameter count of the `napari_get_reader` hook-specification
signature: the single parameter `path`. -/
def specParamCount : Nat := 1

/-- The positional argument list the host supplies when invoking the hook:
exactly the spec arguments, here the one path. -/
def hostArgs (p : PathArg) : List PathArg := [p]

/-- Modelled from the module docstring: hook implementations may accept fewer
arguments than the specification defines, but must not require more.  The
caller passes an implementation requiring `required` parameters the first
`required` of the supplied arguments; when more are required than supplied,
the invocation fails. -/
def invokeImpl (required : Nat) (supplied : List PathArg) : Option (List PathArg) :=
  if required ≤ supplied.length then Option.some (supplied.take required)
  else Option.none

/-- C9: an implementation requiring at most the single spec parameter is
invocable, one requiring more is not; and an invocable implementation stays
invocable when the specification later grows extra arguments. -/
theorem C9_fewer_args_conforming (n : Nat) (p : PathArg) :
    ((invokeImpl n (hostArgs p)).isSome = decide (n ≤ specParamCount)) ∧
    (∀ extra, (invokeImpl n (hostArgs p)).isSome = true →
      invokeImpl n (hostArgs p ++ extra) =
        Option.some ((hostArgs p ++ extra).take n)) := by
  constructor
  · by_cases h : n ≤ 1
    · have hv : invokeImpl n (hostArgs p) = Option.some ((hostArgs p).take n) := by
        unfold invokeImpl hostArgs
        rw [if_pos]
        simpa using h
      rw [hv]
      simp [specParamCount, h]
    · have hv : invokeImpl n (hostArgs p) = Option.none := by
        unfold invokeImpl hostArgs
        rw [if_neg]
        simpa using h
      rw [hv]
      simp [specParamCount, h]
  · intro extra hsome
    have hn : n ≤ 1 := by
      by_contra hcon
      have hv : invokeImpl n (hostArgs p) = Option.none := by
        unfold invokeImpl hostArgs
        rw [if_neg]
        simpa using hcon
      rw [hv] at hsome
      simp at hsome
    unfold invokeImpl
    rw [if_pos]
    simp only [List.length_append, hostArgs, List.length_singleton]
    omega

/-- Witness for C9: with one supplied argument, an arity-1 implementation is
invocable, an arity-2 one is not, and the arity-1 one survives adding an extra
argument. -/
theorem C9_fewer_args_witness :
    ((invokeImpl 1 (hostArgs (PathArg.single "a.png"))).isSome =
      decide (1 ≤ specParamCount)) ∧
    ((invokeImpl 2 (hostArgs (PathArg.single "a.png"))).isSome =
      decide (2 ≤ specParamCount)) ∧
    invokeImpl 1 (hostArgs (PathArg.single "a.png") ++ [PathArg.single "b.png"]) =
      Option.some
        ((hostArgs (PathArg.single "a.png") ++ [PathArg.single "b.png"]).take 1) :=
  ⟨(C9_fewer_args_conforming 1 (PathArg.single "a.png")).1,
    (C9_fewer_args_conforming 2 (PathArg.single "a.png")).1,
    (C9_fewer_args_conforming 1 (PathArg.single "a.png")).2
      [PathArg.single "b.png"] (by decide)⟩

/-- A 2-D image: a list of rows of pixel values. -/
def Image2D : Type := List (List Int)

/-- An image is rectangular when every row has one common length. -/
def isRect (im : Image2D) : Bool :=
  List.all im (fun row => row.length == (List.headD im []).length)

/-- The (rows, cols) shape of a 2-D image. -/
def shape2D (im : Image2D) : Nat × Nat :=
  (List.length im, (List.headD im []).length)

/-- A 3-D stack: an ordered list of 2-D slices along the third axis. -/
structure Stack3D where
  slices : List Image2D

/-- Stacking a list of 2-D images along a third axis. -/
def stackAlongAxis3 (ims : List Image2D) : Stack3D := ⟨ims⟩

/-- Modelled from the docstring of `napari_get_reader`: when `path` is a list,
each listed path holds one part of a single larger multi-dimensional stack;
concretely, the loaded 2-D images are rectangular and of one common shape. -/
def stackCompatible (ims : List Image2D) : Bool :=
  ims.all (fun im => isRect im && (shape2D im == shape2D (ims.headD [])))

/-- A well-formed cuboid: every slice rectangular and of one common shape. -/
def isCuboid (a : Stack3D) : Bool := stackCompatible a.slices

/-- The number of slices: the extent of the stack along the third axis. -/
def depth (a : Stack3D) : Nat := a.slices.length

/-- C10: under the caller guarantee that the images loaded from a list of
paths are stack-compatible, stacking along the third axis yields one
well-formed multi-dimensional stack with exactly one slice per listed path,
the i-th slice being the image loaded from the i-th path. -/
theorem C10_list_paths_form_single_stack (load : String → Image2D)
    (ps : List String) (h : stackCompatible (List.map load ps) = true) :
    isCuboid (stackAlongAxis3 (List.map load ps)) = true ∧
    depth (stackAlongAxis3 (List.map load ps)) = ps.length ∧
    ∀ i s, ps.get? i = Option.some s →
      (stackAlongAxis3 (List.map load ps)).slices.get? i =
        Option.some (load s) := by
  refine ⟨h, by simp [depth, stackAlongAxis3], ?_⟩
  intro i s hs
  show (List.map load ps).get? i = Option.some (load s)
  simp only [List.get?_eq_getElem?, List.getElem?_map]
  rw [List.get?_eq_getElem?] at hs
  rw [hs]
  rfl

/-- The constant test image: one 2×2 slice for every path. -/
def constImage : String → Image2D := fun _ => [[0, 0], [0, 0]]

/-- Witness for C10: two paths loading equal 2×2 images stack into one
well-formed 2×2×2 cuboid with each path contributing its slice. -/
theorem C10_list_paths_witness :
    isCuboid (stackAlongAxis3 (List.map constImage ["a.tif", "b.tif"])) = true ∧
    depth (stackAlongAxis3 (List.map constImage ["a.tif", "b.tif"])) =
      List.length ["a.tif", "b.tif"] ∧
    ∀ i s, List.get? ["a.tif", "b.tif"] i = Option.some s →
      (stackAlongAxis3 (List.map constImage ["a.tif", "b.tif"])).slices.get? i =
        Option.some (constImage s) :=
  C10_list_paths_form_single_stack constImage ["a.tif", "b.tif"] (by decide)

end Napari
